import Mathlib

/-!
Shallow embedding of `nmap_scan.py` (krishlodha12/Nmap_Scanner_Tool).

The script is thin glue around two external collaborators: Python's
`socket.gethostbyname` and the `python-nmap` `PortScanner` class.  Both are
modelled explicitly below, from their documented behaviour, as parameters or
small total functions; everything else is translated line by line from the
source.  Observable side effects (logging, printing, file writes) are made
explicit as a trace of `Effect` values.
-/

set_option autoImplicit false

namespace NmapScan

/-- Observable side effects of the script: lines written to the log file
(`logging.info` / `logging.error`), lines printed to stdout (`print`, colour
codes elided), and files written (`open(...).write`). -/
inductive Effect where
  | logInfo (msg : String) : Effect
  | logError (msg : String) : Effect
  | printLine (msg : String) : Effect
  | writeFile (name : String) (content : String) : Effect
deriving DecidableEq

/-- Python's `str.strip()`: remove leading and trailing whitespace. -/
def pyStrip (s : String) : String :=
  ⟨((s.data.dropWhile Char.isWhitespace).reverse.dropWhile Char.isWhitespace).reverse⟩

/-- Python's `str.lower()`: lower-case every character. -/
def pyLower (s : String) : String :=
  ⟨s.data.map Char.toLower⟩

/-- Split a character list at every occurrence of `c` (the list analogue of
Python's `str.split(c)`); used to analyse dotted-quad and CIDR shapes. -/
def splitOnChar (c : Char) : List Char → List (List Char)
  | [] => [[]]
  | x :: xs =>
    if x = c then [] :: splitOnChar c xs
    else
      match splitOnChar c xs with
      | [] => [[x]]
      | p :: ps => (x :: p) :: ps

/-- Numeric value of a string of decimal digits. -/
def digitsVal (l : List Char) : Nat :=
  l.foldl (fun acc c => acc * 10 + (c.toNat - 48)) 0

/-- One octet of a dotted-quad IPv4 literal: nonempty, all digits, value at
most 255. -/
def ipv4Part (p : List Char) : Bool :=
  !p.isEmpty && p.all Char.isDigit && decide (digitsVal p ≤ 255)

/-- A character list spelling a dotted-quad IPv4 literal. -/
def isIPv4Octets (l : List Char) : Bool :=
  (splitOnChar '.' l).length == 4 && (splitOnChar '.' l).all ipv4Part

/-- A string that is a literal IPv4 address in dotted-quad form. -/
def isIPv4Literal (s : String) : Bool :=
  isIPv4Octets s.data

/-- Characters that may appear in a host name handed to the resolver
(letters, digits, hyphen, dot, underscore).  A slash (CIDR notation) or a
colon (IPv6 literal) is not among them. -/
def isHostnameChar (c : Char) : Bool :=
  c.isAlphanum || c == '-' || c == '.' || c == '_'

/-- Model of Python's `socket.gethostbyname`, from its documentation: an IPv4
literal is returned unchanged; a syntactically possible host name is looked up
through the ambient DNS, modelled by the oracle `dns` (`none` = `gaierror`);
anything else — in particular IPv6 literals such as `::1` (the function "does
not support IPv6 name resolution") and strings containing characters illegal
in host names, such as the slash of CIDR notation — raises `socket.gaierror`,
modelled as `none`.  `gaierror` is a subclass of `OSError` = `socket.error`,
so every failure of this call is caught by the `except socket.error` clause in
`validate_target`. -/
def gethostbyname (dns : String → Option String) (s : String) : Option String :=
  if isIPv4Literal s then some s
  else if s.data.all isHostnameChar && !s.data.isEmpty then dns s
  else none

/-- `validate_target` (nmap_scan.py lines 11-19): calls
`socket.gethostbyname(target)`; on success returns `True` with no side
effects, on `socket.error` logs an error line, prints an error message and
returns `False`.  The returned pair is (result, effect trace). -/
def validate_target (dns : String → Option String) (target : String) :
    Bool × List Effect :=
  match gethostbyname dns target with
  | some _ => (true, [])
  | none =>
      (false,
        [Effect.logError (("Invalid target: ") ++ target),
         Effect.printLine
           (("Invalid target: ") ++ target ++
             (". Please enter a valid IP or domain."))])

/-- CIDR notation: a dotted-quad IPv4 address, a slash, and a mask length of
at most 32 (e.g. `10.0.0.0/8`). -/
def isCIDR (s : String) : Bool :=
  match splitOnChar '/' s.data with
  | [a, p] =>
      isIPv4Octets a && !p.isEmpty && p.all Char.isDigit &&
        decide (digitsVal p ≤ 32)
  | _ => false

/-- Number of addresses a CIDR block expands to: `2 ^ (32 - mask)`. -/
def cidrHostCount (s : String) : Nat :=
  match splitOnChar '/' s.data with
  | [_, p] => 2 ^ (32 - digitsVal p)
  | _ => 0

/-- The queryable state of a `nmap.PortScanner` after a successful scan: the
hosts of `all_hosts()` in order, each with its `hostname()`, `state()`, and
per-protocol port table (`nm[host][protocol]`, a port number mapped to the
printed representation of its state information). -/
structure HostEntry where
  host : String
  hostname : String
  state : String
  protocols : List (String × List (Nat × String))
deriving DecidableEq

/-- A scanner object is observed through its list of host entries. -/
abbrev Scanner := List HostEntry

/-- Outcome of the `nm.scan(target, arguments=options)` call inside the `try`
block: a successful scan, a raised `nmap.PortScannerError`, or any other
raised `Exception`. -/
inductive ScanOutcome where
  | ok (sc : Scanner) : ScanOutcome
  | portScannerError (msg : String) : ScanOutcome
  | otherError (msg : String) : ScanOutcome

/-- `run_nmap_scan` (nmap_scan.py lines 21-38).  `ctorFail` models the
`nmap.PortScanner()` call on line 23, which sits OUTSIDE the `try` block:
python-nmap's `PortScanner.__init__` itself raises `PortScannerError` (e.g.
"nmap program was not found in path") when the external binary is missing,
and such an exception propagates to the caller, modelled as `Except.error`.
With construction succeeded, the `try` block prints the start banner, runs
the scan, and catches `PortScannerError` in one branch and every other
`Exception` in one generic branch, returning `None` in both error cases. -/
def run_nmap_scan (ctorFail : Option String) (outcome : ScanOutcome)
    (target options : String) : Except String (Option Scanner × List Effect) :=
  match ctorFail with
  | some e => Except.error e
  | none =>
      let banner :=
        ("\nStarting Nmap scan on ") ++ target ++ (" with options: ") ++ options
      match outcome with
      | ScanOutcome.ok sc =>
          Except.ok (some sc,
            [Effect.printLine banner,
             Effect.logInfo (("Scan successful on ") ++ target)])
      | ScanOutcome.portScannerError e =>
          Except.ok (none,
            [Effect.printLine banner,
             Effect.logError (("Nmap error: ") ++ e),
             Effect.printLine (("Nmap scan failed: ") ++ e)])
      | ScanOutcome.otherError e =>
          Except.ok (none,
            [Effect.printLine banner,
             Effect.logError (("Unexpected error: ") ++ e),
             Effect.printLine (("Unexpected error: ") ++ e)])

/-- The value `run_nmap_scan` returns once construction succeeded: the
scanner on success (line 31), `None` after either `except` branch
(line 38). -/
def scanReturnValue (outcome : ScanOutcome) : Option Scanner :=
  match outcome with
  | ScanOutcome.ok sc => some sc
  | _ => none

/-- The `result_lines` contributed by one host in `display_scan_results`:
the host line, the state line, and for each protocol its line followed by one
line per port. -/
def hostLines (h : HostEntry) : List String :=
  (("\nHost: ") ++ h.host ++ (" (") ++ h.hostname ++ (")"))
    :: (("State: ") ++ h.state)
    :: h.protocols.flatMap
        (fun pr =>
          (("Protocol: ") ++ pr.1)
            :: pr.2.map
                (fun ps =>
                  ("Port: ") ++ toString ps.1 ++ ("\tState: ") ++ ps.2))

/-- The full `result_lines` list accumulated over `nm.all_hosts()`. -/
def resultLines (sc : Scanner) : List String :=
  sc.flatMap hostLines

/-- Observable output of `display_scan_results`: the lines printed (colour
codes elided; they carry the same text as `result_lines`) and the file
written, if any, as (name, content). -/
structure DisplayOut where
  printed : List String
  file : Option (String × String)
deriving DecidableEq

/-- `display_scan_results` (nmap_scan.py lines 40-71).  `run_nmap_scan`
returns either a `PortScanner` (always truthy) or `None`, so the `if not nm:
return` guard on line 42 fires exactly on `None`: nothing is printed and no
file is written.  Otherwise the result lines are printed and, when
`save_to_file` is set, written joined by newlines to
`nmap_scan_results_<timestamp>.txt` (`ts` models
`datetime.now().strftime('%Y%m%d_%H%M%S')`), followed by a confirmation
line. -/
def display_scan_results (nm : Option Scanner) (save_to_file : Bool)
    (ts : String) : DisplayOut :=
  match nm with
  | none => ⟨[], none⟩
  | some sc =>
      let lines := resultLines sc
      if save_to_file then
        let filename := ("nmap_scan_results_") ++ ts ++ (".txt")
        ⟨lines ++ [("\nResults saved to ") ++ filename],
         some (filename, String.intercalate ("\n") lines)⟩
      else ⟨lines, none⟩

/-- The `scan_options` dictionary of `scan_menu` (lines 84-90), looked up
with `.get`: `none` models a key miss. -/
def scan_options (choice : String) : Option String :=
  if choice = ("1") then some ("-sP")
  else if choice = ("2") then some ("-sV")
  else if choice = ("3") then some ("-O")
  else if choice = ("4") then some ("-sS")
  else if choice = ("5") then some ("-sV -sC")
  else none

/-- `scan_menu` (nmap_scan.py lines 73-92): strips the raw input and returns
`scan_options.get(choice, '-sV -sC')`, i.e. the looked-up string or the
default `'-sV -sC'`.  The menu prints are elided (interactive I/O). -/
def scan_menu (rawChoice : String) : String :=
  (scan_options (pyStrip rawChoice)).getD ("-sV -sC")

/-- The save answer check of `main` (line 109):
`save_option.strip().lower() in ['yes', 'y']`. -/
def saveRequested (answer : String) : Bool :=
  pyLower (pyStrip answer) = ("yes") || pyLower (pyStrip answer) = ("y")

/-- `main` (nmap_scan.py lines 94-119) together with the `__main__` guard
(lines 121-122): the interpreter exits with code 0 when `main` returns
normally — including the early `return` on line 102 after failed validation —
and with a nonzero code (1) only when an exception escapes `main`
(in this model: a `PortScanner` construction failure propagated by
`run_nmap_scan`).  The first component is the process exit code, the second
the effect trace (prompt strings passed to `input()` are elided as
interactive I/O; `ts` stands in for the `datetime.now()` values). -/
def main (dns : String → Option String)
    (targetInput choiceInput saveInput : String)
    (ctorFail : Option String) (outcome : ScanOutcome) (ts : String) :
    Nat × List Effect :=
  let welcome := ("\nWelcome to the Nmap Scanner Tool!")
  let target := pyStrip targetInput
  let v := validate_target dns target
  if v.1 = false then
    (0, Effect.printLine welcome :: v.2)
  else
    let options := scan_menu choiceInput
    let save := saveRequested saveInput
    let pre :=
      Effect.printLine welcome :: v.2 ++
        [Effect.logInfo (("Starting scan on ") ++ target),
         Effect.printLine
           (("Starting scan on ") ++ target ++ (" at ") ++ ts)]
    match run_nmap_scan ctorFail outcome target options with
    | Except.error _ => (1, pre)
    | Except.ok (nm, eff) =>
        let d := display_scan_results nm save ts
        (0, pre ++ eff ++ d.printed.map Effect.printLine ++
          (match d.file with
           | some nc => [Effect.writeFile nc.1 nc.2]
           | none => []))

/-! ### Helper lemmas about `splitOnChar` -/

theorem splitOnChar_ne_nil (c : Char) (l : List Char) : splitOnChar c l ≠ [] := by
  induction l with
  | nil => simp [splitOnChar]
  | cons x xs ih =>
    unfold splitOnChar
    by_cases h : x = c
    · simp [h]
    · simp only [if_neg h]
      cases hs : splitOnChar c xs with
      | nil => simp
      | cons p ps => simp

theorem mem_of_two_le_splitOnChar_length (c : Char) (l : List Char)
    (h : 2 ≤ (splitOnChar c l).length) : c ∈ l := by
  induction l with
  | nil => simp [splitOnChar] at h
  | cons x xs ih =>
    by_cases hx : x = c
    · exact hx ▸ List.mem_cons_self x xs
    · cases hs : splitOnChar c xs with
      | nil => exact absurd hs (splitOnChar_ne_nil c xs)
      | cons p ps =>
        have hsplit : splitOnChar c (x :: xs) = (x :: p) :: ps := by
          unfold splitOnChar
          rw [if_neg hx, hs]
        rw [hsplit] at h
        have h2 : 2 ≤ (splitOnChar c xs).length := by
          rw [hs]
          simp only [List.length_cons] at h ⊢
          omega
        exact List.mem_cons_of_mem x (ih h2)

theorem splitOnChar_mem (c d : Char) (l : List Char)
    (hd : d ∈ l) (hne : d ≠ c) : ∃ p ∈ splitOnChar c l, d ∈ p := by
  induction l with
  | nil => cases hd
  | cons x xs ih =>
    by_cases hx : x = c
    · have hd' : d ∈ xs := by
        rcases List.mem_cons.mp hd with rfl | h
        · exact absurd hx hne
        · exact h
      obtain ⟨p, hp, hdp⟩ := ih hd'
      refine ⟨p, ?_, hdp⟩
      unfold splitOnChar
      rw [if_pos hx]
      exact List.mem_cons_of_mem _ hp
    · cases hs : splitOnChar c xs with
      | nil => exact absurd hs (splitOnChar_ne_nil c xs)
      | cons p ps =>
        have hsplit : splitOnChar c (x :: xs) = (x :: p) :: ps := by
          unfold splitOnChar
          rw [if_neg hx, hs]
        rcases List.mem_cons.mp hd with rfl | hd'
        · exact ⟨d :: p, by rw [hsplit]; exact List.mem_cons_self _ _,
            List.mem_cons_self _ _⟩
        · obtain ⟨q, hq, hdq⟩ := ih hd'
          rw [hs] at hq
          rcases List.mem_cons.mp hq with rfl | hq'
          · exact ⟨x :: q, by rw [hsplit]; exact List.mem_cons_self _ _,
              List.mem_cons_of_mem x hdq⟩
          · exact ⟨q, by rw [hsplit]; exact List.mem_cons_of_mem _ hq', hdq⟩

theorem mem_all_eq_false {α : Type} {p : α → Bool} {l : List α} {d : α}
    (hd : d ∈ l) (hp : p d = false) : l.all p = false := by
  cases hall : l.all p
  · rfl
  · exact absurd (List.all_eq_true.mp hall d hd) (by simp [hp])

theorem isCIDR_slash_mem {s : String} (h : isCIDR s = true) : '/' ∈ s.data := by
  unfold isCIDR at h
  cases hs : splitOnChar '/' s.data with
  | nil => exact absurd hs (splitOnChar_ne_nil _ _)
  | cons a rest =>
    cases rest with
    | nil =>
      rw [hs] at h
      simp at h
    | cons p rest2 =>
      cases rest2 with
      | nil =>
        apply mem_of_two_le_splitOnChar_length '/' s.data
        rw [hs]
        simp
      | cons q rest3 =>
        rw [hs] at h
        simp at h

theorem slash_not_ipv4Octets {l : List Char} (h : '/' ∈ l) :
    isIPv4Octets l = false := by
  obtain ⟨p, hp, hdp⟩ := splitOnChar_mem '.' '/' l h (by decide)
  have hdig : p.all Char.isDigit = false := mem_all_eq_false hdp (by decide)
  have h1 : ipv4Part p = false := by
    unfold ipv4Part
    rw [hdig]
    simp
  have h2 : (splitOnChar '.' l).all ipv4Part = false := mem_all_eq_false hp h1
  unfold isIPv4Octets
  rw [h2]
  simp

theorem slash_no_resolution (dns : String → Option String) {s : String}
    (h : '/' ∈ s.data) : gethostbyname dns s = none := by
  have h1 : isIPv4Literal s = false := by
    unfold isIPv4Literal
    exact slash_not_ipv4Octets h
  have h2 : s.data.all isHostnameChar = false := mem_all_eq_false h (by decide)
  unfold gethostbyname
  rw [h1, h2]
  simp

/-! ### Claim theorems -/

/-- C1: for every DNS behaviour and every target string, `validate_target`
returns `True` exactly when `socket.gethostbyname` succeeds, and returns
`False` whenever resolution raises a resolution error (`socket.error`,
modelled as `none`). -/
theorem validate_target_success_iff_resolution (dns : String → Option String)
    (t : String) :
    (validate_target dns t).1 = (gethostbyname dns t).isSome := by
  unfold validate_target
  cases gethostbyname dns t <;> rfl

/-- C2 counterexample: `run_nmap_scan` CAN propagate an exception to its
caller.  The `nmap.PortScanner()` call on line 23 sits outside the `try`
block, and python-nmap's constructor raises `PortScannerError` when the nmap
binary is missing; `run_nmap_scan` then raises instead of returning `None`. -/
theorem run_nmap_scan_propagation_counterexample :
    run_nmap_scan (some ("nmap program was not found in path"))
        (ScanOutcome.ok []) ("127.0.0.1") ("-sV -sC") =
      Except.error ("nmap program was not found in path") := rfl

/-- C2 (amended): once `PortScanner` construction succeeds, `run_nmap_scan`
propagates no exception raised by the scan: `PortScannerError` is caught by
its own branch, every other exception by the one generic branch, and in both
error cases the function returns `None` (`scanReturnValue` is `some` exactly
on a successful scan). -/
theorem run_nmap_scan_catches_scan_exceptions (outcome : ScanOutcome)
    (t o : String) :
    ∃ eff : List Effect,
      run_nmap_scan none outcome t o = Except.ok (scanReturnValue outcome, eff) := by
  cases outcome <;> exact ⟨_, rfl⟩

/-- C3 counterexample: when the entered target fails validation, `main`
returns early and the process exit code is 0, not nonzero as claimed. -/
theorem main_exit_code_counterexample :
    (validate_target (fun _ => none) (pyStrip ("nohost.invalid"))).1 = false ∧
    (main (fun _ => none) ("nohost.invalid") ("5") ("no") none
        (ScanOutcome.ok []) ("20240101_000000")).1 = 0 :=
  ⟨by decide, by decide⟩

/-- C3 (amended): whenever `PortScanner` construction does not raise, the
process exit code is 0 — both on normal completion and when the entered
target fails validation (`main` just returns after `validate_target` returns
`False`); the program never sets a nonzero exit code itself. -/
theorem main_exit_code_zero (dns : String → Option String)
    (ti ci si : String) (outcome : ScanOutcome) (ts : String) :
    (main dns ti ci si none outcome ts).1 = 0 := by
  unfold main
  by_cases h : (validate_target dns (pyStrip ti)).1 = false
  · simp [h]
  · cases outcome <;> simp [h, run_nmap_scan]

/-- C4: for every DNS behaviour, every configured cap and every CIDR block
whose expansion exceeds that cap, `validate_target` fails with the
invalid-target outcome (`False`) rather than accepting the specification.
(In the code this holds because CIDR notation contains a slash, which name
resolution rejects; no separate cap check exists, so every CIDR block is
rejected regardless of size.) -/
theorem validate_target_caps_cidr (dns : String → Option String) (cap : Nat)
    (s : String) (h1 : isCIDR s = true) (h2 : cap < cidrHostCount s) :
    (validate_target dns s).1 = false := by
  have hs := isCIDR_slash_mem h1
  unfold validate_target
  rw [slash_no_resolution dns hs]

/-- C4 witness: `10.0.0.0/8` expands to `2 ^ 24` hosts, more than a cap of
256, and is rejected even when the DNS oracle would resolve everything. -/
theorem validate_target_caps_cidr_witness :
    isCIDR ("10.0.0.0/8") = true ∧ 256 < cidrHostCount ("10.0.0.0/8") ∧
    (validate_target (fun _ => some ("198.51.100.7")) ("10.0.0.0/8")).1 = false :=
  ⟨by decide, by decide,
    validate_target_caps_cidr (fun _ => some ("198.51.100.7")) 256
      ("10.0.0.0/8") (by decide) (by decide)⟩

/-- C5: the five menu choices map to exactly the five argument strings
`-sP`, `-sV`, `-O`, `-sS`, `-sV -sC`, and for every choice string
`scan_menu` returns exactly one of these five strings. -/
theorem scan_menu_mode_strings (c : String) :
    (scan_menu ("1") = ("-sP") ∧ scan_menu ("2") = ("-sV") ∧
     scan_menu ("3") = ("-O") ∧ scan_menu ("4") = ("-sS") ∧
     scan_menu ("5") = ("-sV -sC")) ∧
    scan_menu c ∈ [("-sP"), ("-sV"), ("-O"), ("-sS"), ("-sV -sC")] := by
  refine ⟨by decide, ?_⟩
  unfold scan_menu scan_options
  split_ifs <;> decide

/-- C6: with a non-`None` scan result, requesting a save writes the result
lines joined by newlines to `nmap_scan_results_<timestamp>.txt`; when saving
is not requested, no file is written. -/
theorem display_scan_results_file_output (sc : Scanner) (ts : String)
    (nm : Option Scanner) (ts2 : String) :
    (display_scan_results (some sc) true ts).file =
      some ((("nmap_scan_results_") ++ ts ++ (".txt")),
        String.intercalate ("\n") (resultLines sc)) ∧
    (display_scan_results nm false ts2).file = none := by
  refine ⟨rfl, ?_⟩
  cases nm <;> rfl

/-- C7 counterexample: `::1` is the IPv6 loopback address, a valid literal
IP, yet `validate_target` returns `False` on it even when the DNS oracle
resolves every name — `socket.gethostbyname` does not support IPv6. -/
theorem validate_target_ipv6_counterexample :
    (validate_target (fun _ => some ("203.0.113.5")) ("::1")).1 = false := by
  decide

/-- C7 (amended): for every valid literal IPv4 address string,
`validate_target` succeeds with no resolution error and no side effects;
IPv6 literals are rejected because `socket.gethostbyname` does not support
IPv6 name resolution. -/
theorem validate_target_accepts_ipv4 (dns : String → Option String)
    (s : String) (h : isIPv4Literal s = true) :
    validate_target dns s = (true, []) := by
  unfold validate_target gethostbyname
  simp [h]

/-- C7 witness: the IPv4 literal `192.0.2.1` is accepted even with a DNS
oracle that resolves nothing. -/
theorem validate_target_accepts_ipv4_witness :
    isIPv4Literal ("192.0.2.1") = true ∧
    validate_target (fun _ => none) ("192.0.2.1") = (true, []) :=
  ⟨by decide, validate_target_accepts_ipv4 (fun _ => none) ("192.0.2.1") (by decide)⟩

/-- C8 counterexample: on a failing target the validator is not
side-effect-free — its effect trace is nonempty (an error is logged and an
error message is printed). -/
theorem validate_target_silent_counterexample :
    (validate_target (fun _ => none) ("nohost.invalid")).2 ≠ ([] : List Effect) := by
  decide

/-- C8 (amended): on success `validate_target` performs no side effects
beyond resolution; on failure it writes exactly one error line to the log
and prints one error message — and writes no file in either case. -/
theorem validate_target_effect_trace (dns : String → Option String)
    (t : String) :
    (validate_target dns t).2 =
      (if (gethostbyname dns t).isSome then ([] : List Effect)
       else
        [Effect.logError (("Invalid target: ") ++ t),
         Effect.printLine
           (("Invalid target: ") ++ t ++
             (". Please enter a valid IP or domain."))]) := by
  unfold validate_target
  cases gethostbyname dns t <;> rfl

/-- C9: for every raw choice whose stripped form is not one of
`1`..`5` — including the empty string and arbitrary text — `scan_menu`
returns the combined default option string `-sV -sC` rather than failing. -/
theorem scan_menu_default_fallback (c : String)
    (h : pyStrip c ∉ [("1"), ("2"), ("3"), ("4"), ("5")]) :
    scan_menu c = ("-sV -sC") := by
  simp only [List.mem_cons, List.not_mem_nil, or_false, not_or] at h
  obtain ⟨h1, h2, h3, h4, h5⟩ := h
  unfold scan_menu scan_options
  rw [if_neg h1, if_neg h2, if_neg h3, if_neg h4, if_neg h5]
  rfl

/-- C9 witness: the empty input falls back to the default `-sV -sC`. -/
theorem scan_menu_default_fallback_witness :
    pyStrip ("") ∉ [("1"), ("2"), ("3"), ("4"), ("5")] ∧
    scan_menu ("") = ("-sV -sC") :=
  ⟨by decide, scan_menu_default_fallback ("") (by decide)⟩

/-- C10: called with a `None` scan result (the failed-scan case),
`display_scan_results` returns immediately: no result line is printed and no
file is written, even when saving was requested. -/
theorem display_scan_results_none_noop (save : Bool) (ts : String) :
    display_scan_results none save ts = ⟨[], none⟩ := rfl

end NmapScan
